import Mathlib

/-!
Verification development for the TriPlan "Connection Guardian" core.

The development shallowly embeds the two source modules that carry the
algorithmic content:

* `src/services/pivotEngine.ts` — kinematic heuristics (`calculateMissChance`,
  `parseTimeToday`, `haversineKm`, `buildRescueRoute`, the template message
  builders).  JavaScript `number` arithmetic that feeds the logistic curve is
  modelled over `ℝ` (`Real.exp` for `Math.exp`); timestamps are integer
  milliseconds (`ℤ`), as produced by `Date.now()` / `Date.getTime()`.
* the `PivotProvider` guardian state machine (`startGuardian`, `stopGuardian`,
  `handleGpsTick`, `dismissAlert`, `activatePivot`) — React state plus the
  mutable refs (`lastAlertAt`, `isProcessingAlert`, `locationSubscription`)
  are flattened into one `Session` record.  The asynchronous
  `handleGpsTick` is split into its synchronous prefix
  (`handleGpsTickSync`, everything up to and including the decision to begin
  an alert computation) and the two possible completions of the awaited part
  (`completeAlert` for the `try` branch, `completeAlertFailure` for the
  `catch` branch; the `finally` release of the in-flight guard is part of
  both).  Quantities carried by ticks and legs at this layer are modelled as
  rationals, which cover every value the integer-valued probability and the
  GPS samples of the claims can take.
-/

namespace TriPlan

/-! ## Geo/Kinematics utility (`src/services/pivotEngine.ts`) -/

/-- Embedding of `calculateMissChance` (pivotEngine.ts, lines 97–118).
`Math.exp` is `Real.exp`, `Math.round` is `round : ℝ → ℤ`,
`Math.min`/`Math.max` are `min`/`max`. -/
noncomputable def calculateMissChance
    (currentSpeedKmh distanceKm minutesRemaining : ℝ) : ℤ :=
  let BUFFER_MIN : ℝ := 7
  let effectiveMinutes := minutesRemaining - BUFFER_MIN
  if effectiveMinutes ≤ 0 then 95      -- already in buffer danger zone
  else if distanceKm ≤ 0.1 then 2      -- already at connection
  else
    let requiredSpeed := (distanceKm / effectiveMinutes) * 60
    let safeSpeed := max currentSpeedKmh 1
    let r := requiredSpeed / safeSpeed
    let k : ℝ := 5
    let x0 : ℝ := 1.0
    let raw := 1 / (1 + Real.exp (-(k * (r - x0))))
    min 95 (max 2 (round (raw * 100)))

/-- The clamped logistic percentage computed in the final branch of
`calculateMissChance`, as a function of the speed ratio. -/
noncomputable def missCore (r : ℝ) : ℤ :=
  min 95 (max 2 (round (1 / (1 + Real.exp (-((5 : ℝ) * (r - 1.0)))) * 100)))

/-- The `Math.atan2(y, x)` function (quadrant-aware arctangent), by its
standard case analysis. -/
noncomputable def atan2 (y x : ℝ) : ℝ :=
  if 0 < x then Real.arctan (y / x)
  else if x < 0 ∧ 0 ≤ y then Real.arctan (y / x) + Real.pi
  else if x < 0 ∧ y < 0 then Real.arctan (y / x) - Real.pi
  else if x = 0 ∧ 0 < y then Real.pi / 2
  else if x = 0 ∧ y < 0 then -(Real.pi / 2)
  else 0

/-- Embedding of `haversineKm` (pivotEngine.ts, lines 69–82). -/
noncomputable def haversineKm (lat1 lng1 lat2 lng2 : ℝ) : ℝ :=
  let R : ℝ := 6371
  let dLat := (lat2 - lat1) * Real.pi / 180
  let dLng := (lng2 - lng1) * Real.pi / 180
  let a :=
    Real.sin (dLat / 2) ^ 2 +
      Real.cos (lat1 * Real.pi / 180) *
        Real.cos (lat2 * Real.pi / 180) *
        Real.sin (dLng / 2) ^ 2
  R * 2 * atan2 (Real.sqrt a) (Real.sqrt (1 - a))

/-- The `hhmm.split(':')` step of `parseTimeToday`: split a character
sequence on the colon separator. -/
def splitOnColon : List Char → List (List Char)
  | [] => [[]]
  | c :: rest =>
    let r := splitOnColon rest
    if c = ':' then [] :: r
    else (c :: r.headD []) :: r.tail

/-- The `Number(...)` step of `parseTimeToday` on a string of decimal
digits. -/
def parseNatDigits (cs : List Char) : ℕ :=
  cs.foldl (fun acc c => acc * 10 + (c.toNat - 48)) 0

/-- The timestamp (ms) of today's occurrence of the wall-clock time written
in `hhmm`, relative to `dayStartMs`, the timestamp of today's midnight.
This is the `new Date(year, month, date, h, m, 0, 0)` value built inside
`parseTimeToday`, for a calendar model with fixed 86,400,000 ms days. -/
def todayOccurrenceMs (hhmm : String) (dayStartMs : ℤ) : ℤ :=
  let parts := (splitOnColon hhmm.data).map parseNatDigits
  let h := parts.headD 0
  let m := (parts.drop 1).headD 0
  dayStartMs + ((h * 60 + m : ℕ) : ℤ) * 60000

/-- Embedding of `parseTimeToday` (pivotEngine.ts, lines 59–66): resolve
"HH:MM" to today's occurrence, and push it one day later when it is more
than 60 s in the past relative to `nowMs` (`t.getTime() < now.getTime() -
60_000`, then `t.setDate(t.getDate() + 1)`). -/
def parseTimeToday (hhmm : String) (dayStartMs nowMs : ℤ) : ℤ :=
  let t := todayOccurrenceMs hhmm dayStartMs
  if t < nowMs - 60000 then t + 86400000 else t

/-! ## Data model (`pivotEngine.ts` interfaces, `ors.ts` route shape) -/

/-- Transport mode of the next leg (`GuardedLeg.nextMode`). -/
inductive NextMode
  | train | flight | bus | metro | ferry | rideshare
deriving DecidableEq

/-- One leg of the active journey that is being guarded (`GuardedLeg`).
Coordinates and times at the state-machine layer are rationals. -/
structure GuardedLeg where
  connectionName : String
  connectionLat : ℚ
  connectionLng : ℚ
  departureTime : String
  nextMode : NextMode
  nextProvider : String
deriving DecidableEq

/-- Result of a single probability calculation tick (`PivotTick`). -/
structure PivotTick where
  missChancePct : ℚ
  minutesRemaining : ℚ
  distanceRemainingKm : ℚ
  projectedArrivalMin : ℚ
  speedKmh : ℚ
deriving DecidableEq

/-- One turn-by-turn step of an ORS route (`RouteStep` in `ors.ts`). -/
structure RouteStep where
  instruction : String
  distance : ℚ
  duration : ℚ
  type : ℚ
deriving DecidableEq

/-- A route returned by the external routing collaborator (`ORSRoute`). -/
structure ORSRoute where
  coordinates : List (ℚ × ℚ)
  distanceM : ℚ
  durationS : ℚ
  steps : List RouteStep
deriving DecidableEq

/-- Suggested last-mile mode (`PivotAlert['rescueMode']`). -/
inductive RescueMode
  | auto | bike_taxi | cab
deriving DecidableEq

/-- The full pivot alert that is surfaced to the UI (`PivotAlert`). -/
structure PivotAlert where
  tick : PivotTick
  aiMessage : String
  rescueRoute : Option ORSRoute
  rescuePickupLat : ℚ
  rescuePickupLng : ℚ
  rescuePickupName : String
  rescueMode : RescueMode
  rescueSavingMin : ℤ
  triggeredAt : ℤ
deriving DecidableEq

/-- The `{lat, lng, name}` pickup record returned by `deriveRescuePickup`. -/
structure RescuePickup where
  lat : ℚ
  lng : ℚ
  name : String
deriving DecidableEq

/-- The record returned by `buildRescueRoute`. -/
structure RescuePlan where
  route : Option ORSRoute
  pickup : RescuePickup
  savingMin : ℤ
  mode : RescueMode
deriving DecidableEq

/-! ## Rescue planner (`pivotEngine.ts`, lines 158–208) -/

/-- Embedding of `deriveRescuePickup` (pivotEngine.ts, lines 158–168):
55 % along the straight line with a small perpendicular offset. -/
def deriveRescuePickup (userLat userLng destLat destLng : ℚ) : RescuePickup :=
  let t : ℚ := 0.55
  let perpScale : ℚ := 0.004
  { lat := userLat + t * (destLat - userLat) + perpScale * (destLng - userLng)
    lng := userLng + t * (destLng - userLng) - perpScale * (destLat - userLat)
    name := "Next signal junction" }

/-- Embedding of `buildRescueRoute` (pivotEngine.ts, lines 176–208).  The
awaited reply of the external routing collaborator (`calculateRoute`, which
resolves to `ORSRoute | null`) is passed in as `route`.  The saving estimate
mixes the rational route data with the real-valued `haversineKm`, so it is
computed over `ℝ`; the recommended mode depends only on the tick's
distance-to-destination band. -/
noncomputable def buildRescueRoute
    (userLat userLng : ℚ) (leg : GuardedLeg) (tick : PivotTick)
    (route : Option ORSRoute) : RescuePlan :=
  let pickup := deriveRescuePickup userLat userLng leg.connectionLat leg.connectionLng
  let rescueTotalMin : ℝ :=
    match route with
    | some r =>
        (r.durationS : ℝ) / 60
          + 5
          + (haversineKm (pickup.lat : ℝ) (pickup.lng : ℝ)
              (leg.connectionLat : ℝ) (leg.connectionLng : ℝ) / 15) * 60
    | none => (tick.projectedArrivalMin : ℝ)
  let savingMin : ℤ := max 0 (round ((tick.projectedArrivalMin : ℝ) - rescueTotalMin))
  let mode : RescueMode :=
    if tick.distanceRemainingKm < 2 then .bike_taxi
    else if 8 < tick.distanceRemainingKm then .cab
    else .auto
  { route := route, pickup := pickup, savingMin := savingMin, mode := mode }

/-! ## Alert composer (`pivotEngine.ts`, lines 212–265) -/

/-- The `MODE_LABELS` record; every enum member has an entry, so the
`|| 'connection'` default in the source never fires. -/
def MODE_LABELS : NextMode → String
  | .train => "Train"
  | .flight => "Flight"
  | .bus => "Bus"
  | .metro => "Metro"
  | .ferry => "Ferry"
  | .rideshare => "Cab"

/-- The `RESCUE_LABELS` record. -/
def RESCUE_LABELS : RescueMode → String
  | .auto => "Auto-Rickshaw"
  | .bike_taxi => "Bike Taxi (Rapido)"
  | .cab => "Cab (Ola/Uber)"

/-- Embedding of `buildShortNotificationText` (pivotEngine.ts, lines
231–243).  `Math.round` on the rational tick fields is `round : ℚ → ℤ`. -/
def buildShortNotificationText
    (tick : PivotTick) (leg : GuardedLeg) (savingMin : ℤ)
    (rescueMode : RescueMode) : String :=
  let modeLabel := MODE_LABELS leg.nextMode
  let rideName := RESCUE_LABELS rescueMode
  "⚠️ " ++ toString (round tick.missChancePct) ++ "% chance of missing your "
    ++ modeLabel ++ " at " ++ leg.departureTime ++ ". "
    ++ "Get off now → " ++ rideName ++ " can save ~" ++ toString savingMin
    ++ " min. Tap to see rescue route."

/-- Embedding of `buildFallbackAiMessage` (pivotEngine.ts, lines 249–265):
the pure template in-app message used when the phrasing provider fails. -/
def buildFallbackAiMessage
    (tick : PivotTick) (leg : GuardedLeg) (pickupName : String)
    (rescueMode : RescueMode) (savingMin : ℤ) : String :=
  let rideName := RESCUE_LABELS rescueMode
  let modeLabel := MODE_LABELS leg.nextMode
  "Traffic detected on your route. At your current speed ("
    ++ toString (round tick.speedKmh) ++ " km/h), "
    ++ "you have a " ++ toString (round tick.missChancePct)
    ++ "% chance of missing the " ++ modeLabel ++ " (" ++ leg.nextProvider ++ ") "
    ++ "departing at " ++ leg.departureTime ++ ". "
    ++ "🛺 Get off at the " ++ pickupName ++ ". A " ++ rideName
    ++ " through the side lane can save ~" ++ toString savingMin ++ " minutes. "
    ++ "Tap \"Navigate Rescue Path\" to start."

/-! ## Guardian state machine (`PivotProvider` in the context module) -/

/-- The `GuardianStatus` union. -/
inductive GuardianStatus
  | idle          -- not running
  | watching      -- GPS polling active, all OK
  | alert         -- pivot alert is showing
  | pivoting      -- user tapped – navigating rescue path
  | safe          -- connection made in time – guardian relaxed
deriving DecidableEq

/-- The `PivotState` React state together with the provider's refs
(`locationSubscription`, `lastAlertAt`, `isProcessingAlert`), flattened into
one record.  `locationSubscription` keeps only whether a subscription is
installed. -/
structure Session where
  status : GuardianStatus
  currentTick : Option PivotTick
  activeAlert : Option PivotAlert
  guardedLegs : List GuardedLeg
  currentLegIndex : ℕ
  locationSubscription : Bool
  lastAlertAt : ℤ
  isProcessingAlert : Bool
deriving DecidableEq

/-- `defaultState` plus the initial ref values (`null`, `0`, `false`). -/
def defaultState : Session :=
  { status := .idle
    currentTick := none
    activeAlert := none
    guardedLegs := []
    currentLegIndex := 0
    locationSubscription := false
    lastAlertAt := 0
    isProcessingAlert := false }

/-- `ALERT_THRESHOLD_PCT = 60`: fire alert when miss chance > 60 %. -/
def ALERT_THRESHOLD_PCT : ℚ := 60

/-- `ALERT_COOLDOWN_MS = 3 * 60_000`: 3-minute cooldown between alerts. -/
def ALERT_COOLDOWN_MS : ℤ := 3 * 60000

/-- `SAFE_THRESHOLD_PCT = 25`: below 25 % the alert is cleared. -/
def SAFE_THRESHOLD_PCT : ℚ := 25

/-- Embedding of `startGuardian` (context module, lines 294–330).  `legs`
is the argument; `locGranted` is whether
`Location.requestForegroundPermissionsAsync()` resolved with status
`'granted'`.  An empty leg list or a denied permission returns before any
state, ref or subscription is touched; otherwise the state is replaced by
the watching defaults for `legs` and a fresh position subscription is
installed. -/
def startGuardian (s : Session) (legs : List GuardedLeg) (locGranted : Bool) :
    Session :=
  if legs.length = 0 then s
  else if locGranted = false then s
  else
    { status := .watching
      currentTick := none
      activeAlert := none
      guardedLegs := legs
      currentLegIndex := 0
      locationSubscription := true
      lastAlertAt := s.lastAlertAt
      isProcessingAlert := s.isProcessingAlert }

/-- Embedding of `stopGuardian` (context module, lines 334–341). -/
def stopGuardian (_s : Session) : Session :=
  { status := defaultState.status
    currentTick := defaultState.currentTick
    activeAlert := defaultState.activeAlert
    guardedLegs := defaultState.guardedLegs
    currentLegIndex := defaultState.currentLegIndex
    locationSubscription := false
    lastAlertAt := 0
    isProcessingAlert := false }

/-- Embedding of `dismissAlert` (context module, lines 486–489): hide the
banner without stopping the guardian. -/
def dismissAlert (s : Session) : Session :=
  { s with status := .watching, activeAlert := none }

/-- Embedding of `activatePivot` (context module, lines 491–493). -/
def activatePivot (s : Session) : Session :=
  { s with status := .pivoting }

/-- The synchronous prefix of `handleGpsTick` (context module, lines
345–389): from the ref guards down to (and including) the decision to begin
an alert computation.  `tick` is the value `buildTick` computed from the
GPS sample and `now` is `Date.now()` at this tick.  The returned `Bool`
tells whether an alert computation was begun (the body of the `try` then
runs asynchronously and is modelled by `completeAlert` /
`completeAlertFailure`); at the moment the computation begins the in-flight
guard is taken and `lastAlertAt` is set to `now`. -/
def handleGpsTickSync (s : Session) (tick : PivotTick) (now : ℤ) :
    Session × Bool :=
  if s.guardedLegs.length = 0 ∨ s.guardedLegs.length ≤ s.currentLegIndex then
    (s, false)
  else
    let s1 := { s with currentTick := some tick }
    if tick.minutesRemaining ≤ 0 ∧ s1.currentLegIndex < s1.guardedLegs.length - 1 then
      ({ s1 with currentLegIndex := s1.currentLegIndex + 1
                 status := .watching
                 activeAlert := none }, false)
    else if tick.missChancePct < SAFE_THRESHOLD_PCT then
      (if s1.status = .alert
        then { s1 with status := .watching, activeAlert := none }
        else s1, false)
    else if ALERT_THRESHOLD_PCT < tick.missChancePct
        ∧ s1.isProcessingAlert = false
        ∧ ALERT_COOLDOWN_MS < now - s1.lastAlertAt then
      ({ s1 with isProcessingAlert := true, lastAlertAt := now }, true)
    else
      (s1, false)

/-- Completion of the `try` branch of the alert computation (context
module, lines 391–440): publish the assembled alert, then release the
in-flight guard in the `finally`. -/
def completeAlert (s : Session) (a : PivotAlert) : Session :=
  { s with status := .alert, activeAlert := some a, isProcessingAlert := false }

/-- Completion of the `catch` branch of the alert computation (context
module, lines 441–480): retry `buildRescueRoute` with a `.catch` default of
`{route: null, pickup: {lat, lng, 'next junction'}, savingMin: 0, mode:
'auto'}` (`retryPlan = none` models the rejected retry), build the pure
template message, publish the fallback alert, then release the in-flight
guard in the `finally`. -/
def completeAlertFailure (s : Session) (tick : PivotTick) (leg : GuardedLeg)
    (retryPlan : Option RescuePlan) (lat lng : ℚ) (now : ℤ) : Session :=
  let plan := retryPlan.getD
    { route := none
      pickup := { lat := lat, lng := lng, name := "next junction" }
      savingMin := 0
      mode := .auto }
  let fallbackMsg :=
    buildFallbackAiMessage tick leg plan.pickup.name plan.mode plan.savingMin
  let a : PivotAlert :=
    { tick := tick
      aiMessage := fallbackMsg
      rescueRoute := plan.route
      rescuePickupLat := plan.pickup.lat
      rescuePickupLng := plan.pickup.lng
      rescuePickupName := plan.pickup.name
      rescueMode := plan.mode
      rescueSavingMin := plan.savingMin
      triggeredAt := now }
  { s with status := .alert, activeAlert := some a, isProcessingAlert := false }

/-! ## Event traces

A stream of position samples interleaved with completions of the
asynchronous alert computation.  The cooldown claim quantifies over such
streams. -/

/-- One event seen by the guardian while monitoring: a position sample
(already turned into its tick, with its `Date.now()` timestamp), or the
completion of the in-flight alert computation, successful or failed. -/
inductive GEvent
  | tick (t : PivotTick) (now : ℤ)
  | completeOk (a : PivotAlert)
  | completeFail (t : PivotTick) (leg : GuardedLeg) (retryPlan : Option RescuePlan)
      (lat lng : ℚ) (now : ℤ)

/-- Run a list of guardian events from a session, collecting the timestamps
at which an alert computation was begun. -/
def runTrace (s : Session) : List GEvent → Session × List ℤ
  | [] => (s, [])
  | .tick t now :: rest =>
      let p := handleGpsTickSync s t now
      let q := runTrace p.1 rest
      (q.1, if p.2 then now :: q.2 else q.2)
  | .completeOk a :: rest => runTrace (completeAlert s a) rest
  | .completeFail t leg plan lat lng now :: rest =>
      runTrace (completeAlertFailure s t leg plan lat lng now) rest

/-! ## Concrete sample data for witnesses and counterexamples -/

/-- A sample guarded leg. -/
def sampleLeg : GuardedLeg :=
  { connectionName := "Chennai Central"
    connectionLat := 13
    connectionLng := 80
    departureTime := "18:30"
    nextMode := .train
    nextProvider := "IRCTC" }

/-- A tick reporting 70 % miss chance (above the 60 % alert threshold). -/
def tickHigh : PivotTick :=
  { missChancePct := 70, minutesRemaining := 20, distanceRemainingKm := 5
    projectedArrivalMin := 30, speedKmh := 20 }

/-- A tick reporting 10 % miss chance (comfortably below the 25 % band). -/
def tickLow : PivotTick :=
  { missChancePct := 10, minutesRemaining := 20, distanceRemainingKm := 5
    projectedArrivalMin := 10, speedKmh := 40 }

/-- A tick 1.5 km from the connection. -/
def tickNear : PivotTick :=
  { missChancePct := 70, minutesRemaining := 10, distanceRemainingKm := 3/2
    projectedArrivalMin := 12, speedKmh := 10 }

/-- A tick 5 km from the connection. -/
def tickMid : PivotTick :=
  { missChancePct := 70, minutesRemaining := 10, distanceRemainingKm := 5
    projectedArrivalMin := 20, speedKmh := 15 }

/-- A tick 10 km from the connection. -/
def tickFar : PivotTick :=
  { missChancePct := 70, minutesRemaining := 10, distanceRemainingKm := 10
    projectedArrivalMin := 40, speedKmh := 15 }

/-- A watching session guarding one leg, cooldown clear, nothing in flight. -/
def sessionWatching : Session :=
  { status := .watching
    currentTick := none
    activeAlert := none
    guardedLegs := [sampleLeg]
    currentLegIndex := 0
    locationSubscription := true
    lastAlertAt := 0
    isProcessingAlert := false }

/-- A sample assembled alert. -/
def sampleAlert : PivotAlert :=
  { tick := tickHigh
    aiMessage := "sample"
    rescueRoute := none
    rescuePickupLat := 13
    rescuePickupLng := 80
    rescuePickupName := "Next signal junction"
    rescueMode := .auto
    rescueSavingMin := 4
    triggeredAt := 1000000 }

/-! ## Helper lemmas -/

/-- Rounding to the nearest integer is monotone. -/
theorem round_le_round_of_le {x y : ℝ} (h : x ≤ y) : round x ≤ round y := by
  rw [round_eq, round_eq]
  exact Int.floor_le_floor (by linarith)

/-- The clamped logistic percentage is monotone in the speed ratio. -/
theorem missCore_mono {x y : ℝ} (h : x ≤ y) : missCore x ≤ missCore y := by
  unfold missCore
  refine min_le_min le_rfl (max_le_max le_rfl (round_le_round_of_le ?_))
  have hexp : Real.exp (-(5 * (y - 1.0))) ≤ Real.exp (-(5 * (x - 1.0))) :=
    Real.exp_le_exp.2 (by linarith)
  have hy : (0:ℝ) < 1 + Real.exp (-(5 * (y - 1.0))) := by positivity
  have hdiv : 1 / (1 + Real.exp (-((5:ℝ) * (x - 1.0))))
      ≤ 1 / (1 + Real.exp (-((5:ℝ) * (y - 1.0)))) :=
    one_div_le_one_div_of_le hy (by linarith)
  exact mul_le_mul_of_nonneg_right hdiv (by norm_num)

/-- The clamped logistic percentage never goes below 2. -/
theorem missCore_ge_two (r : ℝ) : 2 ≤ missCore r := by
  unfold missCore
  exact le_min (by norm_num) (le_max_left _ _)

/-- First saturation branch of `calculateMissChance`. -/
theorem calculateMissChance_danger {s d m : ℝ} (h : m - 7 ≤ 0) :
    calculateMissChance s d m = 95 := by
  simp only [calculateMissChance]
  rw [if_pos h]

/-- Second saturation branch of `calculateMissChance`. -/
theorem calculateMissChance_arrived {s d m : ℝ} (h1 : ¬ m - 7 ≤ 0) (h2 : d ≤ 0.1) :
    calculateMissChance s d m = 2 := by
  simp only [calculateMissChance]
  rw [if_neg h1, if_pos h2]

/-- Logistic branch of `calculateMissChance`, expressed through `missCore`. -/
theorem calculateMissChance_logistic {s d m : ℝ} (h1 : ¬ m - 7 ≤ 0) (h2 : ¬ d ≤ 0.1) :
    calculateMissChance s d m = missCore ((d / (m - 7)) * 60 / max s 1) := by
  simp only [calculateMissChance]
  rw [if_neg h1, if_neg h2]
  rfl

/-! ## Claim theorems -/

/-- C1: for every speed, distance and minutes-remaining, `calculateMissChance`
returns an integer in the interval [2, 95], and whenever
`minutesRemaining - 7 ≤ 0` it returns exactly 95 regardless of speed and
distance. -/
theorem missChance_bounds (s d m : ℝ) :
    2 ≤ calculateMissChance s d m ∧ calculateMissChance s d m ≤ 95 ∧
      (m - 7 ≤ 0 → calculateMissChance s d m = 95) := by
  by_cases h1 : m - 7 ≤ 0
  · rw [calculateMissChance_danger h1]
    exact ⟨by norm_num, by norm_num, fun _ => rfl⟩
  · by_cases h2 : d ≤ 0.1
    · rw [calculateMissChance_arrived h1 h2]
      exact ⟨by norm_num, by norm_num, fun h => absurd h h1⟩
    · rw [calculateMissChance_logistic h1 h2]
      refine ⟨missCore_ge_two _, ?_, fun h => absurd h h1⟩
      unfold missCore
      exact min_le_left _ _

/-- Witness for C1: with 0 minutes remaining the effective window is gone
and the probability saturates at 95. -/
theorem missChance_bounds_witness :
    (0:ℝ) - 7 ≤ 0 ∧ calculateMissChance 1 1 0 = 95 :=
  ⟨by norm_num, (missChance_bounds 1 1 0).2.2 (by norm_num)⟩

/-- C4 counterexample: at 0.05 km from the connection but only 5 minutes
remaining, the danger saturation fires first and the result is 95, not 2. -/
theorem missChance_at_connection_counterexample :
    (0.05 : ℝ) ≤ 0.1 ∧ calculateMissChance 30 0.05 5 = 95 ∧
      calculateMissChance 30 0.05 5 ≠ 2 := by
  refine ⟨by norm_num, calculateMissChance_danger (by norm_num), ?_⟩
  rw [calculateMissChance_danger (by norm_num)]
  decide

/-- C4 (amended): whenever the remaining distance is at most 0.1 km AND more
than 7 minutes remain, `calculateMissChance` returns exactly 2 regardless of
speed; with at most 7 minutes remaining the danger saturation takes
precedence and it returns 95. -/
theorem missChance_at_connection (s d m : ℝ) (hd : d ≤ 0.1) :
    (7 < m → calculateMissChance s d m = 2) ∧
      (m ≤ 7 → calculateMissChance s d m = 95) :=
  ⟨fun hm => calculateMissChance_arrived (by linarith) hd,
   fun hm => calculateMissChance_danger (by linarith)⟩

/-- Witness for C4 (amended): 0.05 km out with 30 minutes in hand gives 2. -/
theorem missChance_at_connection_witness :
    (0.05 : ℝ) ≤ 0.1 ∧ (7:ℝ) < 30 ∧ calculateMissChance 30 0.05 30 = 2 :=
  ⟨by norm_num, by norm_num,
    (missChance_at_connection 30 0.05 30 (by norm_num)).1 (by norm_num)⟩

/-- C6: `parseTimeToday` resolves "HH:MM" to today's occurrence of that
wall-clock time and advances it by exactly one day precisely when that
occurrence is more than 60 seconds in the past relative to now; "00:05"
evaluated at 23:50 resolves to 00:05 the next day, and "08:00" evaluated at
07:00 resolves to 08:00 today. -/
theorem parseTimeToday_rollover (hhmm : String) (dayStartMs nowMs : ℤ) :
    (60000 < nowMs - todayOccurrenceMs hhmm dayStartMs →
        parseTimeToday hhmm dayStartMs nowMs
          = todayOccurrenceMs hhmm dayStartMs + 86400000) ∧
    (nowMs - todayOccurrenceMs hhmm dayStartMs ≤ 60000 →
        parseTimeToday hhmm dayStartMs nowMs = todayOccurrenceMs hhmm dayStartMs) ∧
    parseTimeToday "00:05" 0 ((23 * 60 + 50) * 60000) = 86400000 + 5 * 60000 ∧
    parseTimeToday "08:00" 0 (7 * 60 * 60000) = 8 * 60 * 60000 := by
  refine ⟨fun h => ?_, fun h => ?_, by decide, by decide⟩
  · simp only [parseTimeToday]
    rw [if_pos (by omega)]
  · simp only [parseTimeToday]
    rw [if_neg (by omega)]

/-- Witness for C6: the 23:50 / "00:05" instance of the rollover rule. -/
theorem parseTimeToday_rollover_witness :
    60000 < (23 * 60 + 50) * 60000 - todayOccurrenceMs "00:05" 0 ∧
      parseTimeToday "00:05" 0 ((23 * 60 + 50) * 60000)
        = todayOccurrenceMs "00:05" 0 + 86400000 :=
  ⟨by decide, (parseTimeToday_rollover "00:05" 0 _).1 (by decide)⟩

/-- The recommended mode computed by `buildRescueRoute` as a function of the
tick's distance band. -/
theorem buildRescueRoute_mode_eq (u v : ℚ) (leg : GuardedLeg) (tick : PivotTick)
    (r : Option ORSRoute) :
    (buildRescueRoute u v leg tick r).mode =
      (if tick.distanceRemainingKm < 2 then .bike_taxi
       else if 8 < tick.distanceRemainingKm then .cab
       else .auto) := rfl

/-- C8: `buildRescueRoute` picks the last-mile mode purely by the tick's
distance band: strictly under 2 km gives bike_taxi, strictly over 8 km gives
cab, and everything in between gives auto. -/
theorem buildRescueRoute_mode (u v : ℚ) (leg : GuardedLeg) (tick : PivotTick)
    (r : Option ORSRoute) :
    (tick.distanceRemainingKm < 2 →
        (buildRescueRoute u v leg tick r).mode = .bike_taxi) ∧
    (8 < tick.distanceRemainingKm →
        (buildRescueRoute u v leg tick r).mode = .cab) ∧
    (2 ≤ tick.distanceRemainingKm → tick.distanceRemainingKm ≤ 8 →
        (buildRescueRoute u v leg tick r).mode = .auto) := by
  refine ⟨fun h => ?_, fun h => ?_, fun h1 h2 => ?_⟩ <;>
    rw [buildRescueRoute_mode_eq]
  · rw [if_pos h]
  · rw [if_neg (by linarith), if_pos h]
  · rw [if_neg (by linarith), if_neg (by linarith)]

/-- Witness for C8: distances 1.5 km, 10 km and 5 km give bike_taxi, cab and
auto respectively. -/
theorem buildRescueRoute_mode_witness :
    (tickNear.distanceRemainingKm < 2 ∧
      (buildRescueRoute 0 0 sampleLeg tickNear none).mode = .bike_taxi) ∧
    (8 < tickFar.distanceRemainingKm ∧
      (buildRescueRoute 0 0 sampleLeg tickFar none).mode = .cab) ∧
    (2 ≤ tickMid.distanceRemainingKm ∧ tickMid.distanceRemainingKm ≤ 8 ∧
      (buildRescueRoute 0 0 sampleLeg tickMid none).mode = .auto) :=
  ⟨⟨by norm_num [tickNear],
     (buildRescueRoute_mode 0 0 sampleLeg tickNear none).1 (by norm_num [tickNear])⟩,
   ⟨by norm_num [tickFar],
     (buildRescueRoute_mode 0 0 sampleLeg tickFar none).2.1 (by norm_num [tickFar])⟩,
   ⟨by norm_num [tickMid], by norm_num [tickMid],
     (buildRescueRoute_mode 0 0 sampleLeg tickMid none).2.2
       (by norm_num [tickMid]) (by norm_num [tickMid])⟩⟩

/-- C9: `startGuardian` on an empty leg list or with the location permission
denied has no effect on the session. -/
theorem startGuardian_no_effect (s : Session) (legs : List GuardedLeg) (g : Bool)
    (h : legs = [] ∨ g = false) : startGuardian s legs g = s := by
  unfold startGuardian
  by_cases hl : legs.length = 0
  · rw [if_pos hl]
  · rcases h with h | h
    · exact absurd (by simp [h]) hl
    · rw [if_neg hl, if_pos h]

/-- Witness for C9: starting with an empty leg list from the idle defaults
leaves the session exactly at the idle defaults. -/
theorem startGuardian_no_effect_witness :
    (([] : List GuardedLeg) = [] ∨ true = false) ∧
      startGuardian defaultState [] true = defaultState :=
  ⟨Or.inl rfl, startGuardian_no_effect _ _ _ (Or.inl rfl)⟩

/-- C10: `dismissAlert` on every session sets the status to watching and
clears the alert while leaving legs, leg index, tick, cooldown timestamp,
in-flight guard and subscription unchanged; on an idle session it likewise
lands in watching. -/
theorem dismissAlert_frame (s : Session) :
    (dismissAlert s).status = .watching ∧
    (dismissAlert s).activeAlert = none ∧
    (dismissAlert s).guardedLegs = s.guardedLegs ∧
    (dismissAlert s).currentLegIndex = s.currentLegIndex ∧
    (dismissAlert s).currentTick = s.currentTick ∧
    (dismissAlert s).lastAlertAt = s.lastAlertAt ∧
    (dismissAlert s).isProcessingAlert = s.isProcessingAlert ∧
    (dismissAlert s).locationSubscription = s.locationSubscription ∧
    (dismissAlert defaultState).status = .watching :=
  ⟨rfl, rfl, rfl, rfl, rfl, rfl, rfl, rfl, rfl⟩

/-- C5: holding distance and minutes fixed, `calculateMissChance` does not
increase as speed increases; holding speed and minutes fixed, it does not
decrease as distance increases — for all non-negative speeds, distances and
times. -/
theorem missChance_monotone (sp d m s1 s2 d1 d2 : ℝ) :
    (0 ≤ s1 → s1 ≤ s2 → 0 ≤ d → 0 ≤ m →
        calculateMissChance s2 d m ≤ calculateMissChance s1 d m) ∧
    (0 ≤ sp → 0 ≤ d1 → d1 ≤ d2 → 0 ≤ m →
        calculateMissChance sp d1 m ≤ calculateMissChance sp d2 m) := by
  constructor
  · intro hs1 hs12 hd hm
    by_cases h1 : m - 7 ≤ 0
    · rw [calculateMissChance_danger h1, calculateMissChance_danger h1]
    · by_cases h2 : d ≤ 0.1
      · rw [calculateMissChance_arrived h1 h2, calculateMissChance_arrived h1 h2]
      · rw [calculateMissChance_logistic h1 h2, calculateMissChance_logistic h1 h2]
        apply missCore_mono
        have hm7 : (0:ℝ) < m - 7 := by
          have := not_le.mp h1
          linarith
        have hdpos : (0:ℝ) < d := by
          have := not_le.mp h2
          linarith
        have hreq : (0:ℝ) ≤ d / (m - 7) * 60 := by positivity
        have hmax1 : (0:ℝ) < max s1 1 := lt_of_lt_of_le one_pos (le_max_right s1 1)
        exact div_le_div_of_nonneg_left hreq hmax1 (max_le_max hs12 le_rfl)
  · intro hsp hd1 hd12 hm
    by_cases h1 : m - 7 ≤ 0
    · rw [calculateMissChance_danger h1, calculateMissChance_danger h1]
    · by_cases hd2 : d2 ≤ 0.1
      · rw [calculateMissChance_arrived h1 (le_trans hd12 hd2),
          calculateMissChance_arrived h1 hd2]
      · by_cases hd1s : d1 ≤ 0.1
        · rw [calculateMissChance_arrived h1 hd1s, calculateMissChance_logistic h1 hd2]
          exact missCore_ge_two _
        · rw [calculateMissChance_logistic h1 hd1s, calculateMissChance_logistic h1 hd2]
          apply missCore_mono
          have hm7 : (0:ℝ) < m - 7 := by
            have := not_le.mp h1
            linarith
          have hssp : (0:ℝ) ≤ max sp 1 := le_trans zero_le_one (le_max_right sp 1)
          apply div_le_div_of_nonneg_right _ hssp
          apply mul_le_mul_of_nonneg_right _ (by norm_num)
          exact div_le_div_of_nonneg_right hd12 (le_of_lt hm7)

/-- Witness for C5: doubling the speed at 5 km / 20 min does not raise the
probability, and doubling the distance at 20 km/h / 20 min does not lower
it. -/
theorem missChance_monotone_witness :
    ((0:ℝ) ≤ 10 ∧ (10:ℝ) ≤ 20 ∧ (0:ℝ) ≤ 5 ∧ (0:ℝ) ≤ 20 ∧
       calculateMissChance 20 5 20 ≤ calculateMissChance 10 5 20) ∧
    ((0:ℝ) ≤ 20 ∧ (0:ℝ) ≤ 5 ∧ (5:ℝ) ≤ 10 ∧
       calculateMissChance 20 5 20 ≤ calculateMissChance 20 10 20) :=
  ⟨⟨by norm_num, by norm_num, by norm_num, by norm_num,
     (missChance_monotone 0 5 20 10 20 0 0).1 (by norm_num) (by norm_num)
       (by norm_num) (by norm_num)⟩,
   ⟨by norm_num, by norm_num, by norm_num,
     (missChance_monotone 20 0 20 0 0 5 10).2 (by norm_num) (by norm_num)
       (by norm_num) (by norm_num)⟩⟩

/-- Characterisation of the begin-decision of `handleGpsTickSync`: a begun
computation certifies the guard was free and the cooldown elapsed, takes the
guard and stamps `lastAlertAt := now`; a tick that does not begin leaves
`lastAlertAt` unchanged. -/
theorem handleGpsTickSync_begin_spec (s : Session) (t : PivotTick) (now : ℤ) :
    ((handleGpsTickSync s t now).2 = true →
        s.isProcessingAlert = false ∧
        ALERT_COOLDOWN_MS < now - s.lastAlertAt ∧
        ALERT_THRESHOLD_PCT < t.missChancePct ∧
        (handleGpsTickSync s t now).1.lastAlertAt = now ∧
        (handleGpsTickSync s t now).1.isProcessingAlert = true) ∧
    ((handleGpsTickSync s t now).2 = false →
        (handleGpsTickSync s t now).1.lastAlertAt = s.lastAlertAt) := by
  by_cases h1 : s.guardedLegs.length = 0 ∨ s.guardedLegs.length ≤ s.currentLegIndex
  · have e : handleGpsTickSync s t now = (s, false) := by
      simp only [handleGpsTickSync]
      rw [if_pos h1]
    rw [e]
    exact ⟨(fun hb => nomatch hb), fun _ => rfl⟩
  · by_cases h2 : t.minutesRemaining ≤ 0 ∧ s.currentLegIndex < s.guardedLegs.length - 1
    · have e : handleGpsTickSync s t now =
          ({ s with currentTick := some t
                    currentLegIndex := s.currentLegIndex + 1
                    status := .watching
                    activeAlert := none }, false) := by
        simp only [handleGpsTickSync]
        rw [if_neg h1, if_pos h2]
      rw [e]
      exact ⟨(fun hb => nomatch hb), fun _ => rfl⟩
    · by_cases h3 : t.missChancePct < SAFE_THRESHOLD_PCT
      · by_cases hs : s.status = GuardianStatus.alert
        · have e : handleGpsTickSync s t now =
              ({ s with currentTick := some t
                        status := .watching
                        activeAlert := none }, false) := by
            simp only [handleGpsTickSync]
            rw [if_neg h1, if_neg h2, if_pos h3, if_pos hs]
          rw [e]
          exact ⟨(fun hb => nomatch hb), fun _ => rfl⟩
        · have e : handleGpsTickSync s t now =
              ({ s with currentTick := some t }, false) := by
            simp only [handleGpsTickSync]
            rw [if_neg h1, if_neg h2, if_pos h3, if_neg hs]
          rw [e]
          exact ⟨(fun hb => nomatch hb), fun _ => rfl⟩
      · by_cases h4 : ALERT_THRESHOLD_PCT < t.missChancePct
            ∧ s.isProcessingAlert = false
            ∧ ALERT_COOLDOWN_MS < now - s.lastAlertAt
        · have e : handleGpsTickSync s t now =
              ({ s with currentTick := some t
                        isProcessingAlert := true
                        lastAlertAt := now }, true) := by
            simp only [handleGpsTickSync]
            rw [if_neg h1, if_neg h2, if_neg h3, if_pos h4]
          rw [e]
          exact ⟨(fun _ => ⟨h4.2.1, h4.2.2, h4.1, rfl, rfl⟩), (fun hb => nomatch hb)⟩
        · have e : handleGpsTickSync s t now =
              ({ s with currentTick := some t }, false) := by
            simp only [handleGpsTickSync]
            rw [if_neg h1, if_neg h2, if_neg h3, if_neg h4]
          rw [e]
          exact ⟨(fun hb => nomatch hb), fun _ => rfl⟩

/-- When a tick above the alert threshold arrives with legs to guard, the
current leg not yet expired, no computation in flight and the cooldown
elapsed, the alert computation is begun. -/
theorem handleGpsTickSync_fires (s : Session) (t : PivotTick) (now : ℤ)
    (hlegs : s.guardedLegs.length ≠ 0)
    (hidx : s.currentLegIndex < s.guardedLegs.length)
    (hadv : ¬ (t.minutesRemaining ≤ 0 ∧ s.currentLegIndex < s.guardedLegs.length - 1))
    (hmc : ALERT_THRESHOLD_PCT < t.missChancePct)
    (hguard : s.isProcessingAlert = false)
    (hcd : ALERT_COOLDOWN_MS < now - s.lastAlertAt) :
    (handleGpsTickSync s t now).2 = true := by
  have h1 : ¬ (s.guardedLegs.length = 0 ∨ s.guardedLegs.length ≤ s.currentLegIndex) := by
    push_neg
    exact ⟨hlegs, hidx⟩
  have h3 : ¬ t.missChancePct < SAFE_THRESHOLD_PCT := by
    simp only [SAFE_THRESHOLD_PCT]
    simp only [ALERT_THRESHOLD_PCT] at hmc
    linarith
  simp only [handleGpsTickSync]
  rw [if_neg h1, if_neg hadv, if_neg h3, if_pos ⟨hmc, hguard, hcd⟩]

/-- A tick never moves the session into the `safe` status. -/
theorem handleGpsTickSync_no_safe (s : Session) (t : PivotTick) (now : ℤ)
    (h : s.status ≠ .safe) : (handleGpsTickSync s t now).1.status ≠ .safe := by
  intro hsafe
  unfold handleGpsTickSync at hsafe
  split at hsafe
  · exact h hsafe
  · dsimp only at hsafe
    split at hsafe
    · exact nomatch hsafe
    · split at hsafe
      · split at hsafe
        · exact nomatch hsafe
        · exact h hsafe
      · split at hsafe
        · exact h hsafe
        · exact h hsafe

/-- All `lastAlertAt` stamps collected along a trace lie strictly more than
one cooldown after the `lastAlertAt` of the starting session. -/
theorem runTrace_times_gt (evs : List GEvent) : ∀ (s : Session),
    ∀ x ∈ (runTrace s evs).2, s.lastAlertAt + ALERT_COOLDOWN_MS < x := by
  induction evs with
  | nil =>
    intro s x hx
    simp [runTrace] at hx
  | cons e rest ih =>
    intro s x hx
    cases e with
    | tick t now =>
      simp only [runTrace] at hx
      by_cases hb : (handleGpsTickSync s t now).2 = true
      · rw [if_pos hb] at hx
        have hspec := (handleGpsTickSync_begin_spec s t now).1 hb
        rcases List.mem_cons.mp hx with rfl | hx
        · omega
        · have := ih (handleGpsTickSync s t now).1 x hx
          rw [hspec.2.2.2.1] at this
          have hcd := hspec.2.1
          simp only [ALERT_COOLDOWN_MS] at hcd this ⊢
          omega
      · rw [if_neg hb] at hx
        have hla := (handleGpsTickSync_begin_spec s t now).2 (by simpa using hb)
        have := ih (handleGpsTickSync s t now).1 x hx
        rw [hla] at this
        exact this
    | completeOk a =>
      simp only [runTrace] at hx
      exact ih (completeAlert s a) x hx
    | completeFail t leg plan lat lng now =>
      simp only [runTrace] at hx
      exact ih (completeAlertFailure s t leg plan lat lng now) x hx

/-- Along any trace of ticks and completions, consecutive begin-timestamps
are separated by strictly more than one cooldown. -/
theorem runTrace_chain (evs : List GEvent) : ∀ (s : Session),
    List.Chain' (fun x y => x + ALERT_COOLDOWN_MS < y) (runTrace s evs).2 := by
  induction evs with
  | nil =>
    intro s
    simp [runTrace]
  | cons e rest ih =>
    intro s
    cases e with
    | tick t now =>
      simp only [runTrace]
      by_cases hb : (handleGpsTickSync s t now).2 = true
      · rw [if_pos hb]
        have hspec := (handleGpsTickSync_begin_spec s t now).1 hb
        refine List.chain'_cons'.mpr ⟨?_, ih _⟩
        intro y hy
        have hmem : y ∈ (runTrace (handleGpsTickSync s t now).1 rest).2 :=
          List.mem_of_mem_head? hy
        have := runTrace_times_gt rest (handleGpsTickSync s t now).1 y hmem
        rw [hspec.2.2.2.1] at this
        exact this
      · rw [if_neg hb]
        exact ih _
    | completeOk a => exact ih _
    | completeFail t leg plan lat lng now => exact ih _

/-- C2: along any stream of position samples and completions, begin-times of
alert computations are separated by strictly more than the 3-minute
cooldown; a computation begins only when no computation is in flight and
more than 3 minutes have elapsed since the last-alert timestamp, and at
that moment the timestamp is set to the begin time and the in-flight guard
is taken; a tick above the threshold with the guard free and the cooldown
elapsed does begin one; completions never touch the timestamp. -/
theorem alert_cooldown_discipline (s : Session) (evs : List GEvent)
    (t : PivotTick) (now : ℤ) (a : PivotAlert) (leg : GuardedLeg)
    (plan : Option RescuePlan) (lat lng : ℚ) (cnow : ℤ) :
    List.Chain' (fun x y => x + ALERT_COOLDOWN_MS < y) (runTrace s evs).2 ∧
    ((handleGpsTickSync s t now).2 = true →
        s.isProcessingAlert = false ∧
        ALERT_COOLDOWN_MS < now - s.lastAlertAt ∧
        (handleGpsTickSync s t now).1.lastAlertAt = now ∧
        (handleGpsTickSync s t now).1.isProcessingAlert = true) ∧
    (s.guardedLegs.length ≠ 0 → s.currentLegIndex < s.guardedLegs.length →
        ¬ (t.minutesRemaining ≤ 0 ∧ s.currentLegIndex < s.guardedLegs.length - 1) →
        ALERT_THRESHOLD_PCT < t.missChancePct → s.isProcessingAlert = false →
        ALERT_COOLDOWN_MS < now - s.lastAlertAt →
        (handleGpsTickSync s t now).2 = true) ∧
    (completeAlert s a).lastAlertAt = s.lastAlertAt ∧
    (completeAlertFailure s t leg plan lat lng cnow).lastAlertAt = s.lastAlertAt := by
  refine ⟨runTrace_chain evs s, fun hb => ?_, handleGpsTickSync_fires s t now, rfl, rfl⟩
  have h := (handleGpsTickSync_begin_spec s t now).1 hb
  exact ⟨h.1, h.2.1, h.2.2.2.1, h.2.2.2.2⟩

/-- Witness for C2: a watching session with a 70 % tick at time 1,000,000
begins a computation, stamps `lastAlertAt` with the begin time and takes
the guard. -/
theorem alert_cooldown_discipline_witness :
    (handleGpsTickSync sessionWatching tickHigh 1000000).2 = true ∧
    (handleGpsTickSync sessionWatching tickHigh 1000000).1.lastAlertAt = 1000000 ∧
    (handleGpsTickSync sessionWatching tickHigh 1000000).1.isProcessingAlert = true := by
  have h := alert_cooldown_discipline sessionWatching [] tickHigh 1000000
    sampleAlert sampleLeg none 13 80 0
  have hb := h.2.2.1 (by norm_num [sessionWatching]) (by norm_num [sessionWatching])
    (by norm_num [tickHigh]) (by norm_num [tickHigh, ALERT_THRESHOLD_PCT])
    (by norm_num [sessionWatching]) (by norm_num [sessionWatching, ALERT_COOLDOWN_MS])
  have hc := h.2.1 hb
  exact ⟨hb, hc.2.2.1, hc.2.2.2⟩

/-- The pure template fallback message always contains its fixed prefix and
is therefore never empty. -/
theorem buildFallbackAiMessage_ne_empty (t : PivotTick) (leg : GuardedLeg)
    (pickupName : String) (mode : RescueMode) (savingMin : ℤ) :
    buildFallbackAiMessage t leg pickupName mode savingMin ≠ "" := by
  intro hemp
  have hlen := congrArg String.length hemp
  simp only [buildFallbackAiMessage, String.length_append, String.length_empty] at hlen
  have hpre : ("Traffic detected on your route. At your current speed (").length = 55 := by decide
  rw [hpre] at hlen
  omega

/-- C3: when the alert computation fails, the catch completion still moves
the session to `alert`, with an active alert whose message is the non-empty
pure template `buildFallbackAiMessage`, and the in-flight guard is released
by both the failure and the success completions. -/
theorem alert_fallback_on_failure (s : Session) (t : PivotTick) (leg : GuardedLeg)
    (retryPlan : Option RescuePlan) (lat lng : ℚ) (now : ℤ) (a : PivotAlert) :
    (completeAlertFailure s t leg retryPlan lat lng now).status = .alert ∧
    (∃ al, (completeAlertFailure s t leg retryPlan lat lng now).activeAlert = some al ∧
        (∃ pn md sv, al.aiMessage = buildFallbackAiMessage t leg pn md sv) ∧
        al.aiMessage ≠ "") ∧
    (completeAlertFailure s t leg retryPlan lat lng now).isProcessingAlert = false ∧
    (completeAlert s a).isProcessingAlert = false := by
  refine ⟨rfl, ?_, rfl, rfl⟩
  exact ⟨_, rfl, ⟨_, _, _, rfl⟩, buildFallbackAiMessage_ne_empty _ _ _ _ _⟩

/-- C7 counterexample: a watching session whose tick reports 10 % risk
(comfortably below the 25 % band) stays in `watching`; it does not enter the
distinct `safe` status. -/
theorem watching_low_risk_counterexample :
    sessionWatching.status = .watching ∧
    tickLow.missChancePct < SAFE_THRESHOLD_PCT ∧
    (handleGpsTickSync sessionWatching tickLow 5000).1.status = .watching ∧
    (handleGpsTickSync sessionWatching tickLow 5000).1.status ≠ .safe := by
  have h3 : (handleGpsTickSync sessionWatching tickLow 5000).1.status = .watching := by
    norm_num [handleGpsTickSync, sessionWatching, tickLow, sampleLeg,
      SAFE_THRESHOLD_PCT, ALERT_THRESHOLD_PCT]
  refine ⟨rfl, by norm_num [tickLow, SAFE_THRESHOLD_PCT], h3, ?_⟩
  rw [h3]
  decide

/-- C7 (amended): the `safe` status, though declared, is never entered by
any transition: every operation of the state machine preserves "status is
not `safe`"; when risk drops below the 25 % band while in `alert` the
session reverts to `watching` (clearing the alert), and while in `watching`
it simply stays in `watching`. -/
theorem safe_status_unreachable (s : Session) (t : PivotTick) (now : ℤ)
    (a : PivotAlert) (leg : GuardedLeg) (plan : Option RescuePlan) (lat lng : ℚ)
    (cnow : ℤ) (legs : List GuardedLeg) (g : Bool) :
    (s.status ≠ .safe → (handleGpsTickSync s t now).1.status ≠ .safe) ∧
    (completeAlert s a).status ≠ .safe ∧
    (completeAlertFailure s t leg plan lat lng cnow).status ≠ .safe ∧
    (dismissAlert s).status ≠ .safe ∧
    (activatePivot s).status ≠ .safe ∧
    (stopGuardian s).status ≠ .safe ∧
    (s.status ≠ .safe → (startGuardian s legs g).status ≠ .safe) ∧
    (s.status = .alert → s.guardedLegs.length ≠ 0 →
        s.currentLegIndex < s.guardedLegs.length →
        ¬ (t.minutesRemaining ≤ 0 ∧ s.currentLegIndex < s.guardedLegs.length - 1) →
        t.missChancePct < SAFE_THRESHOLD_PCT →
        (handleGpsTickSync s t now).1.status = .watching ∧
        (handleGpsTickSync s t now).1.activeAlert = none) ∧
    (s.status = .watching → s.guardedLegs.length ≠ 0 →
        s.currentLegIndex < s.guardedLegs.length →
        ¬ (t.minutesRemaining ≤ 0 ∧ s.currentLegIndex < s.guardedLegs.length - 1) →
        t.missChancePct < SAFE_THRESHOLD_PCT →
        (handleGpsTickSync s t now).1.status = .watching) := by
  refine ⟨handleGpsTickSync_no_safe s t now, (fun h => nomatch h), (fun h => nomatch h),
    (fun h => nomatch h), (fun h => nomatch h), (fun h => nomatch h),
    fun hns hsafe => ?_, fun hst hlegs hidx hadv hmc => ?_,
    fun hst hlegs hidx hadv hmc => ?_⟩
  · unfold startGuardian at hsafe
    split at hsafe
    · exact hns hsafe
    · split at hsafe
      · exact hns hsafe
      · exact nomatch hsafe
  · have h1 : ¬ (s.guardedLegs.length = 0 ∨ s.guardedLegs.length ≤ s.currentLegIndex) := by
      push_neg
      exact ⟨hlegs, by omega⟩
    have e : handleGpsTickSync s t now =
        ({ s with currentTick := some t
                  status := .watching
                  activeAlert := none }, false) := by
      simp only [handleGpsTickSync]
      rw [if_neg h1, if_neg hadv, if_pos hmc, if_pos hst]
    rw [e]
    exact ⟨rfl, rfl⟩
  · have h1 : ¬ (s.guardedLegs.length = 0 ∨ s.guardedLegs.length ≤ s.currentLegIndex) := by
      push_neg
      exact ⟨hlegs, by omega⟩
    have hna : ¬ s.status = GuardianStatus.alert := by
      rw [hst]
      decide
    have e : handleGpsTickSync s t now = ({ s with currentTick := some t }, false) := by
      simp only [handleGpsTickSync]
      rw [if_neg h1, if_neg hadv, if_pos hmc, if_neg hna]
    rw [e]
    exact hst

/-- Witness for C7 (amended): dropping to 10 % risk while in `alert` lands
the concrete watching-again state, and while in `watching` nothing changes;
neither lands in `safe`. -/
theorem safe_status_unreachable_witness :
    sessionWatching.status = .watching ∧
    tickLow.missChancePct < SAFE_THRESHOLD_PCT ∧
    (handleGpsTickSync sessionWatching tickLow 5000).1.status = .watching := by
  have h := safe_status_unreachable sessionWatching tickLow 5000
    sampleAlert sampleLeg none 13 80 0 [] true
  refine ⟨rfl, by norm_num [tickLow, SAFE_THRESHOLD_PCT], ?_⟩
  exact h.2.2.2.2.2.2.2.2 rfl (by norm_num [sessionWatching])
    (by norm_num [sessionWatching]) (by norm_num [tickLow])
    (by norm_num [tickLow, SAFE_THRESHOLD_PCT])

end TriPlan
